import Mathlib

/-!
Verification of the Multitek Smart Home integration (custom_components/multitek_smart).

The data coordinator in `coordinator.py` keeps a snapshot of relay devices as a
Python dict keyed by the string form of each device's `id` field.  We embed the
coordinator, the command dispatcher and the presentation views shallowly:
Python dicts become association lists whose insertion keeps the position of an
existing key (as CPython dicts do), JSON values become the inductive `Value`,
and every transport interaction is an explicit outcome value.
-/

namespace Multitek

/-- JSON scalar values as they occur in the device payloads. -/
inductive Value where
  | vNull
  | vBool (b : Bool)
  | vInt (n : Int)
  | vStr (s : String)
deriving DecidableEq

/-- A JSON object (a device entry, a command response body): field name to value. -/
abbrev Device := List (String × Value)

/-- The coordinator snapshot: device-id string to device entry, in insertion order. -/
abbrev Snapshot := List (String × Device)

/-- `d.get(k)` on a Python dict modelled as an association list: first match. -/
def alookup {κ α : Type} [DecidableEq κ] : List (κ × α) → κ → Option α
  | [], _ => none
  | (k1, v) :: rest, k => if k1 = k then some v else alookup rest k

/-- `d[k] = v` on a Python dict: replaces the value in place when the key exists
(keeping its position, as CPython does), appends otherwise. -/
def dictInsert {κ α : Type} [DecidableEq κ] : List (κ × α) → κ → α → List (κ × α)
  | [], k, v => [(k, v)]
  | (k1, w) :: rest, k, v =>
    if k1 = k then (k, v) :: rest else (k1, w) :: dictInsert rest k v

/-- In-place mutation of the entry stored under `k` (`self.data[device_id].update(...)`). -/
def dictModify {κ α : Type} [DecidableEq κ] : List (κ × α) → κ → (α → α) → List (κ × α)
  | [], _, _ => []
  | (k1, w) :: rest, k, f =>
    if k1 = k then (k1, f w) :: rest else (k1, w) :: dictModify rest k f

/-- `d.update(r)` on Python dicts: every field of `r` is written into `d`. -/
def dictUpdate (d r : Device) : Device :=
  r.foldl (fun acc p => dictInsert acc p.1 p.2) d

/-- `Option` fallback used to state merge results. -/
def oElse {α : Type} (a b : Option α) : Option α :=
  match a with
  | some v => some v
  | none => b

/-- Python `str()` of a JSON scalar. -/
def pyStrV : Value → String
  | .vNull => "None"
  | .vBool b => if b then "True" else "False"
  | .vInt n => toString n
  | .vStr s => s

/-- Python `str(d.get(k))`: a missing field reads as `None`, hence the string "None". -/
def pyStr : Option Value → String
  | none => "None"
  | some v => pyStrV v

/-- The snapshot key of a device entry: `str(device.get("id"))` (coordinator.py line 68). -/
def strId (d : Device) : String :=
  pyStr (alookup d "id")

/-- Python truthiness of a JSON scalar (used for `if device_data:` style tests). -/
def pyTruthy : Value → Bool
  | .vNull => false
  | .vBool b => b
  | .vInt n => n != 0
  | .vStr s => s != ""

/-- Body of a `GET /api/devices` response; `devices` may be absent
(`data.get("devices", [])`). -/
structure DevicesBody where
  devices : Option (List Device)
deriving DecidableEq

/-- Outcome of the transport call issued by `_async_update_data`: a timeout,
an `aiohttp.ClientError`, or an HTTP response with a status and parsed body. -/
inductive FetchResult where
  | timeout
  | clientError (msg : String)
  | response (status : Nat) (body : DevicesBody)
deriving DecidableEq

/-- The snapshot-building loop of `_async_update_data` (coordinator.py lines 66-69):
an empty dict filled by `devices[str(device.get("id"))] = device` over `data.get("devices", [])`. -/
def buildSnapshot (ds : List Device) : Snapshot :=
  ds.foldl (fun acc device => dictInsert acc (strId device) device) []

/-- `MultitekDataCoordinator._async_update_data` (coordinator.py lines 52-76):
timeouts, client errors and non-200 statuses raise `UpdateFailed` (the `.error`
branch); a 200 response is rebuilt into a fresh id-keyed dict. -/
def asyncUpdateData : FetchResult → Except String Snapshot
  | .timeout => .error "Timeout fetching data"
  | .clientError msg => .error ("Error fetching data: " ++ msg)
  | .response status body =>
    if status ≠ 200 then .error ("API returned status " ++ toString status)
    else .ok (buildSnapshot (body.devices.getD []))

/-- Coordinator state visible to entities: the snapshot and the success flag. -/
structure CoordState where
  data : Snapshot
  last_update_success : Bool
deriving DecidableEq

/-- Modelled from the spec: the host platform's refresh wrapper around
`_async_update_data` is not part of this repository.  Per spec section 4.2 a
successful fetch replaces the snapshot wholesale and sets
`last_update_success = true`; on any transport error the snapshot is left
untouched and `last_update_success` becomes false. -/
def refresh (st : CoordState) (fr : FetchResult) : CoordState :=
  match asyncUpdateData fr with
  | .ok snap => { data := snap, last_update_success := true }
  | .error _ => { st with last_update_success := false }

/-- Errors raised by `send_relay_command`: a re-raised `asyncio.TimeoutError`
or the `Exception("Command failed: ...")` built from a non-200 response. -/
inductive CmdError where
  | timeout
  | commandFailed (reason : String)
deriving DecidableEq

/-- Outcome of the transport call issued by `send_relay_command`. -/
inductive CmdOutcome where
  | timeout
  | response (status : Nat) (body : Device)
deriving DecidableEq

/-- `error_data.get("message", "Unknown error")` formatted into the exception text. -/
def getMessage (body : Device) : String :=
  match alookup body "message" with
  | none => "Unknown error"
  | some v => pyStrV v

/-- Whether an `Except` result is an error (a raised exception). -/
def isError {ε α : Type} : Except ε α → Bool
  | .error _ => true
  | .ok _ => false

/-- `MultitekDataCoordinator.send_relay_command` (coordinator.py lines 78-121):
on timeout or non-200 the exception propagates before any mutation; on 200 the
response body is merged into the snapshot entry for `device_id` when present
(`if device_id in self.data: self.data[device_id].update(result)`), and the
body is returned either way.  The resulting coordinator state is the first
component; the raised error or returned body is the second. -/
def sendRelayCommand (st : CoordState) (device_id : String) (out : CmdOutcome) :
    CoordState × Except CmdError Device :=
  match out with
  | .timeout => (st, .error .timeout)
  | .response status body =>
    if status ≠ 200 then
      (st, .error (.commandFailed ("Command failed: " ++ getMessage body)))
    else
      if (alookup st.data device_id).isSome then
        ({ st with data := dictModify st.data device_id (fun d => dictUpdate d body) },
          .ok body)
      else
        (st, .ok body)

/-- Outcome of the `GET /api/status` probe: any exception (timeout included), or a
response whose body may carry the boolean `online` field of the status contract. -/
inductive ProbeOutcome where
  | exn
  | response (status : Nat) (online : Option Bool)
deriving DecidableEq

/-- `MultitekDataCoordinator.test_connection` (coordinator.py lines 123-136):
returns `data.get("online", False)` on a 200 response, `False` on any other
status, and `False` when any exception is raised. -/
def test_connection : ProbeOutcome → Bool
  | .exn => false
  | .response status online => if status = 200 then online.getD false else false

/-- `MultitekDeviceCountSensor.native_value` (sensor.py line 58): `len(self.coordinator.data)`. -/
def deviceCount (st : CoordState) : Nat :=
  st.data.length

/-- Grouping key of a device in the device-count sensor:
`device.get("type_name", "unknown")` (sensor.py line 65). -/
def typeKey (d : Device) : Value :=
  (alookup d "type_name").getD (.vStr "unknown")

/-- `MultitekDeviceCountSensor.extra_state_attributes` grouping loop
(sensor.py lines 63-66): counts snapshot entries per `type_name` value. -/
def deviceTypes (st : CoordState) : List (Value × Nat) :=
  st.data.foldl
    (fun acc p => dictInsert acc (typeKey p.2) ((alookup acc (typeKey p.2)).getD 0 + 1))
    []

/-- `MultitekConnectionStatusSensor.native_value` (sensor.py lines 103-108). -/
def connectionStatus (st : CoordState) : String :=
  if st.last_update_success then "Connected" else "Disconnected"

/-- The mutable display state of a `MultitekRelaySwitch` entity. -/
structure SwitchEntity where
  device_id : String
  attr_is_on : Bool
deriving DecidableEq

/-- `_update_from_data` state assignment (switch.py line 140):
`self._attr_is_on = device_data.get("state", False)`, read as Python truthiness. -/
def entityStateFrom (d : Device) : Bool :=
  pyTruthy ((alookup d "state").getD (.vBool false))

/-- `MultitekRelaySwitch._handle_coordinator_update` (switch.py lines 153-159):
re-reads the snapshot entry and, when it is truthy (present and non-empty),
refreshes the displayed state. -/
def handleCoordinatorUpdate (st : CoordState) (e : SwitchEntity) : SwitchEntity :=
  match alookup st.data e.device_id with
  | some d => if d ≠ [] then { e with attr_is_on := entityStateFrom d } else e
  | none => e

/-- `MultitekRelaySwitch.async_toggle` (switch.py lines 181-189) combined with the
dispatcher.  Modelled from the spec for the notification step: observers run on the
same task during the snapshot patch (spec sections 2 and 5), so when the patch is
applied, `_handle_coordinator_update` fires inside `send_relay_command` before it
returns; only afterwards does `async_toggle` run its optimistic flip
`self._attr_is_on = not self._attr_is_on`. -/
def asyncToggle (st : CoordState) (e : SwitchEntity) (out : CmdOutcome) :
    CoordState × SwitchEntity × Except CmdError Device :=
  match sendRelayCommand st e.device_id out with
  | (st1, .error err) => (st1, e, .error err)
  | (st1, .ok result) =>
    let e1 := if (alookup st.data e.device_id).isSome then handleCoordinatorUpdate st1 e else e
    (st1, { e1 with attr_is_on := ! e1.attr_is_on }, .ok result)

/-- A fetch outcome that fails: timeout, client error, or non-200 status. -/
def fetchFails (fr : FetchResult) : Prop :=
  fr = .timeout ∨ (∃ m, fr = .clientError m) ∨ (∃ s b, fr = .response s b ∧ s ≠ 200)

/-- A command outcome that fails: timeout or non-200 status. -/
def cmdFails (out : CmdOutcome) : Prop :=
  out = .timeout ∨ (∃ s b, out = .response s b ∧ s ≠ 200)

/-- Last element of a list satisfying a predicate (the entry a Python dict build
loop leaves in place when several inputs map to the same key). -/
def lastMatch {β : Type} (p : β → Bool) : List β → Option β
  | [] => none
  | b :: bs =>
    match lastMatch p bs with
    | some r => some r
    | none => if p b then some b else none

/-- The scenario device of spec section 8: `id "1", type 1, name "Lamp", state false`. -/
def dev1 : Device :=
  [("id", .vStr "1"), ("type", .vInt 1), ("name", .vStr "Lamp"), ("state", .vBool false)]

/-- A second device, used to check frame conditions. -/
def devOther : Device := [("id", .vStr "2"), ("state", .vBool true)]

/-- A device whose stringified id collides with `dev1`. -/
def devDup : Device := [("id", .vStr "1"), ("name", .vStr "Second")]

/-- A device entry with no `id` field at all. -/
def devNoId : Device := [("name", .vStr "Ghost")]

/-- The scenario fetch body of spec section 8. -/
def body1 : DevicesBody := ⟨some [dev1]⟩

/-- A fetch body with a duplicate stringified id and an id-less entry. -/
def bodyDup : DevicesBody := ⟨some [dev1, devDup, devNoId]⟩

/-- The freshly constructed coordinator: empty snapshot. -/
def st0 : CoordState := ⟨[], true⟩

/-- Coordinator state after the scenario's first successful refresh. -/
def st1 : CoordState := refresh st0 (.response 200 body1)

/-- A coordinator state holding two devices, for frame-condition witnesses. -/
def stTwo : CoordState := ⟨[("1", dev1), ("2", devOther)], true⟩

/-- The command response body `id "1", state true` of the toggle scenario. -/
def toggleBody : Device := [("id", .vStr "1"), ("state", .vBool true)]

/-- The switch entity for device id "1", initially displaying off. -/
def sw1 : SwitchEntity := ⟨"1", false⟩

theorem oElse_none_left {α : Type} (b : Option α) : oElse none b = b := rfl

theorem oElse_some {α : Type} (v : α) (b : Option α) : oElse (some v) b = some v := rfl

theorem oElse_none_right {α : Type} (a : Option α) : oElse a none = a := by
  cases a <;> rfl

theorem alookup_dictInsert_self {κ α : Type} [DecidableEq κ] (m : List (κ × α))
    (k : κ) (v : α) : alookup (dictInsert m k v) k = some v := by
  induction m with
  | nil => simp [dictInsert, alookup]
  | cons p rest ih =>
    obtain ⟨k1, w⟩ := p
    by_cases h1 : k1 = k
    · simp [dictInsert, h1, alookup]
    · simp [dictInsert, h1, alookup, ih]

theorem alookup_dictInsert_ne {κ α : Type} [DecidableEq κ] (m : List (κ × α))
    (k k2 : κ) (v : α) (hne : k2 ≠ k) :
    alookup (dictInsert m k v) k2 = alookup m k2 := by
  have hk : ¬(k = k2) := fun h => hne h.symm
  induction m with
  | nil => simp [dictInsert, alookup, hk]
  | cons p rest ih =>
    obtain ⟨k1, w⟩ := p
    by_cases h1 : k1 = k
    · subst h1
      simp [dictInsert, alookup, hk]
    · by_cases h3 : k1 = k2
      · simp [dictInsert, h1, alookup, h3, hne]
      · simp [dictInsert, h1, alookup, h3, ih]

theorem alookup_foldl_insert {κ α β : Type} [DecidableEq κ] (f : β → κ) (g : β → α)
    (l : List β) (init : List (κ × α)) (k : κ) :
    alookup (l.foldl (fun acc b => dictInsert acc (f b) (g b)) init) k
      = oElse ((lastMatch (fun b => decide (f b = k)) l).map g) (alookup init k) := by
  induction l generalizing init with
  | nil => simp [lastMatch, oElse]
  | cons b bs ih =>
    simp only [List.foldl_cons]
    rw [ih]
    cases h : lastMatch (fun x => decide (f x = k)) bs with
    | some r =>
      simp [lastMatch, h, oElse]
    | none =>
      simp only [lastMatch, h, Option.map_none', oElse_none_left]
      by_cases hb : f b = k
      · subst hb
        rw [alookup_dictInsert_self]
        simp [oElse]
      · have hk : k ≠ f b := fun hh => hb hh.symm
        rw [alookup_dictInsert_ne _ _ _ _ hk]
        simp [hb, oElse]

theorem alookup_buildSnapshot (ds : List Device) (k : String) :
    alookup (buildSnapshot ds) k = lastMatch (fun d => decide (strId d = k)) ds := by
  show alookup (ds.foldl (fun acc b => dictInsert acc (strId b) ((fun d => d) b)) []) k = _
  rw [alookup_foldl_insert strId (fun d => d) ds [] k]
  cases lastMatch (fun d => decide (strId d = k)) ds <;> rfl

theorem alookup_dictUpdate (d r : Device) (k : String) :
    alookup (dictUpdate d r) k
      = oElse ((lastMatch (fun p => decide (p.1 = k)) r).map Prod.snd) (alookup d k) := by
  show alookup (r.foldl (fun acc b => dictInsert acc (Prod.fst b) (Prod.snd b)) d) k = _
  rw [alookup_foldl_insert Prod.fst Prod.snd r d k]

theorem lastMatch_eq_none {β : Type} (p : β → Bool) (l : List β)
    (h : ∀ b ∈ l, p b = false) : lastMatch p l = none := by
  induction l with
  | nil => rfl
  | cons b bs ih =>
    rw [lastMatch, ih (fun x hx => h x (List.mem_cons_of_mem _ hx))]
    simp [h b (List.mem_cons_self _ _)]

theorem lastMatch_mem {β : Type} (p : β → Bool) (l : List β) (b : β)
    (h : lastMatch p l = some b) : b ∈ l ∧ p b = true := by
  induction l with
  | nil => simp [lastMatch] at h
  | cons a as ih =>
    rw [lastMatch] at h
    cases hl : lastMatch p as with
    | some r =>
      rw [hl] at h
      injection h with h2
      subst h2
      obtain ⟨hm, hp⟩ := ih hl
      exact ⟨List.mem_cons_of_mem _ hm, hp⟩
    | none =>
      rw [hl] at h
      by_cases hp : p a = true
      · rw [if_pos hp] at h
        injection h with h2
        subst h2
        exact ⟨List.mem_cons_self _ _, hp⟩
      · rw [if_neg hp] at h
        cases h

theorem lastMatch_key_nodup (r : Device) (k : String) (h : (r.map Prod.fst).Nodup) :
    (lastMatch (fun p => decide (p.1 = k)) r).map Prod.snd = alookup r k := by
  induction r with
  | nil => rfl
  | cons p rest ih =>
    obtain ⟨k1, v⟩ := p
    simp only [List.map_cons, List.nodup_cons] at h
    obtain ⟨hnotin, hrest⟩ := h
    by_cases h1 : k1 = k
    · subst h1
      have hnone : lastMatch (fun p => decide (p.1 = k1)) rest = none := by
        apply lastMatch_eq_none
        intro x hx
        simp only [decide_eq_false_iff_not]
        intro heq
        exact hnotin (heq ▸ List.mem_map_of_mem Prod.fst hx)
      rw [lastMatch, hnone]
      simp [alookup]
    · rw [lastMatch]
      cases hl : lastMatch (fun p => decide (p.1 = k)) rest with
      | some q =>
        have h4 := ih hrest
        rw [hl] at h4
        simp [alookup, h1, h4]
      | none =>
        have h4 := ih hrest
        rw [hl] at h4
        simp only [Option.map_none'] at h4
        simp [alookup, h1, ← h4]

theorem alookup_dictModify_self {κ α : Type} [DecidableEq κ] (m : List (κ × α))
    (k : κ) (f : α → α) : alookup (dictModify m k f) k = (alookup m k).map f := by
  induction m with
  | nil => rfl
  | cons p rest ih =>
    obtain ⟨k1, v⟩ := p
    by_cases h1 : k1 = k
    · subst h1
      simp [dictModify, alookup]
    · simp [dictModify, alookup, h1, ih]

theorem alookup_dictModify_ne {κ α : Type} [DecidableEq κ] (m : List (κ × α))
    (k k2 : κ) (f : α → α) (hne : k2 ≠ k) :
    alookup (dictModify m k f) k2 = alookup m k2 := by
  induction m with
  | nil => rfl
  | cons p rest ih =>
    obtain ⟨k1, v⟩ := p
    by_cases h1 : k1 = k
    · subst h1
      have hk : ¬(k1 = k2) := fun h => hne h.symm
      simp [dictModify, alookup, hk]
    · by_cases h3 : k1 = k2
      · simp [dictModify, h1, alookup, h3, hne]
      · simp [dictModify, h1, alookup, h3, ih]

theorem lastMatch_strId_nodup (ds : List Device) (d : Device)
    (hnodup : (ds.map strId).Nodup) (hmem : d ∈ ds) :
    lastMatch (fun x => decide (strId x = strId d)) ds = some d := by
  induction ds with
  | nil => cases hmem
  | cons a as ih =>
    simp only [List.map_cons, List.nodup_cons] at hnodup
    obtain ⟨hnotin, has⟩ := hnodup
    rcases List.mem_cons.mp hmem with rfl | hmem2
    · have hnone : lastMatch (fun x => decide (strId x = strId d)) as = none := by
        apply lastMatch_eq_none
        intro x hx
        simp only [decide_eq_false_iff_not]
        intro heq
        exact hnotin (heq ▸ List.mem_map_of_mem strId hx)
      rw [lastMatch, hnone]
      simp
    · rw [lastMatch, ih has hmem2]

theorem refresh_ok (st : CoordState) (fr : FetchResult) (snap : Snapshot)
    (h : asyncUpdateData fr = .ok snap) : refresh st fr = ⟨snap, true⟩ := by
  unfold refresh
  rw [h]

theorem refresh_err (st : CoordState) (fr : FetchResult) (msg : String)
    (h : asyncUpdateData fr = .error msg) : refresh st fr = ⟨st.data, false⟩ := by
  unfold refresh
  rw [h]

/-- C1: after every successful refresh the snapshot equals exactly the mapping
built from the fetched device list — one entry per returned device (their
stringified ids being distinct), keyed by the string form of its `id` field,
holding the full returned entry; every pre-refresh entry whose key is not among
the fetched ids is gone, whatever the previous snapshot was. -/
theorem refresh_success_full_replace (st : CoordState) (body : DevicesBody)
    (ds : List Device) (hds : body.devices = some ds)
    (hnodup : (ds.map strId).Nodup) :
    (refresh st (.response 200 body)).data = buildSnapshot ds
    ∧ (∀ d ∈ ds, alookup (buildSnapshot ds) (strId d) = some d)
    ∧ (∀ k v, alookup (buildSnapshot ds) k = some v → v ∈ ds ∧ strId v = k)
    ∧ (∀ k, k ∉ ds.map strId → alookup (buildSnapshot ds) k = none) := by
  refine ⟨?_, ?_, ?_, ?_⟩
  · rw [refresh_ok st _ (buildSnapshot ds) (by simp [asyncUpdateData, hds])]
  · intro d hd
    rw [alookup_buildSnapshot]
    exact lastMatch_strId_nodup ds d hnodup hd
  · intro k v hv
    rw [alookup_buildSnapshot] at hv
    have h2 := lastMatch_mem _ _ _ hv
    exact ⟨h2.1, by simpa using h2.2⟩
  · intro k hk
    rw [alookup_buildSnapshot]
    apply lastMatch_eq_none
    intro x hx
    simp only [decide_eq_false_iff_not]
    intro he
    exact hk (he ▸ List.mem_map_of_mem strId hx)

theorem refresh_success_full_replace_witness :
    (refresh stTwo (.response 200 body1)).data = buildSnapshot [dev1]
    ∧ alookup (buildSnapshot [dev1]) (strId dev1) = some dev1
    ∧ alookup (buildSnapshot [dev1]) "2" = none := by
  have h := refresh_success_full_replace stTwo body1 [dev1] rfl (by decide)
  exact ⟨h.1, h.2.1 dev1 (List.mem_cons_self dev1 []), h.2.2.2 "2" (by decide)⟩

/-- C2: on a failed fetch (timeout, client error, or non-200 status)
`_async_update_data` raises `UpdateFailed`, the snapshot stays exactly what the
last successful fetch left, and `last_update_success` becomes false. -/
theorem refresh_failure_keeps_snapshot (st : CoordState) (fr : FetchResult)
    (hfail : fetchFails fr) :
    isError (asyncUpdateData fr) = true
    ∧ (refresh st fr).data = st.data
    ∧ (refresh st fr).last_update_success = false := by
  have herr : ∃ msg, asyncUpdateData fr = .error msg := by
    rcases hfail with rfl | ⟨m, rfl⟩ | ⟨s, b, rfl, hs⟩
    · exact ⟨_, rfl⟩
    · exact ⟨_, rfl⟩
    · refine ⟨"API returned status " ++ toString s, ?_⟩
      simp [asyncUpdateData, hs]
  obtain ⟨msg, hmsg⟩ := herr
  refine ⟨by simp [isError, hmsg], ?_, ?_⟩
  · rw [refresh_err st fr msg hmsg]
  · rw [refresh_err st fr msg hmsg]

theorem refresh_failure_keeps_snapshot_witness :
    isError (asyncUpdateData .timeout) = true
    ∧ (refresh ⟨[("1", dev1)], true⟩ .timeout).data = [("1", dev1)]
    ∧ (refresh ⟨[("1", dev1)], true⟩ .timeout).last_update_success = false :=
  refresh_failure_keeps_snapshot ⟨[("1", dev1)], true⟩ .timeout (Or.inl rfl)

/-- C3: a successful `send_relay_command` on a device present in the snapshot
returns the response body, rewrites the entry for that device to the old entry
overwritten by exactly the response's fields (fields not in the response are
preserved), and leaves every other snapshot entry untouched. -/
theorem send_command_patches_only_target (st : CoordState) (device_id : String)
    (old body : Device)
    (hpresent : alookup st.data device_id = some old)
    (hbody : (body.map Prod.fst).Nodup) :
    (sendRelayCommand st device_id (.response 200 body)).2 = .ok body
    ∧ alookup (sendRelayCommand st device_id (.response 200 body)).1.data device_id
        = some (dictUpdate old body)
    ∧ (∀ f, alookup (dictUpdate old body) f = oElse (alookup body f) (alookup old f))
    ∧ (∀ k, k ≠ device_id →
        alookup (sendRelayCommand st device_id (.response 200 body)).1.data k
          = alookup st.data k) := by
  have hsome : (alookup st.data device_id).isSome = true := by rw [hpresent]; rfl
  have hcmd : sendRelayCommand st device_id (.response 200 body)
      = ({ st with data := dictModify st.data device_id (fun d => dictUpdate d body) },
          .ok body) := by
    simp [sendRelayCommand, hsome]
  refine ⟨by rw [hcmd], ?_, ?_, ?_⟩
  · rw [hcmd]
    show alookup (dictModify st.data device_id fun d => dictUpdate d body) device_id = _
    rw [alookup_dictModify_self, hpresent]
    rfl
  · intro f
    rw [alookup_dictUpdate, lastMatch_key_nodup body f hbody]
  · intro k hk
    rw [hcmd]
    exact alookup_dictModify_ne st.data device_id k _ hk

theorem send_command_patches_only_target_witness :
    (sendRelayCommand stTwo "1" (.response 200 toggleBody)).2 = .ok toggleBody
    ∧ alookup (sendRelayCommand stTwo "1" (.response 200 toggleBody)).1.data "1"
        = some (dictUpdate dev1 toggleBody)
    ∧ alookup (dictUpdate dev1 toggleBody) "name"
        = oElse (alookup toggleBody "name") (alookup dev1 "name")
    ∧ alookup (sendRelayCommand stTwo "1" (.response 200 toggleBody)).1.data "2"
        = alookup stTwo.data "2" := by
  have h := send_command_patches_only_target stTwo "1" dev1 toggleBody (by decide) (by decide)
  exact ⟨h.1, h.2.1, h.2.2.1 "name", h.2.2.2 "2" (by decide)⟩

/-- C4: a successful `send_relay_command` on a device id absent from the
snapshot does not raise, leaves the coordinator state completely unchanged, and
still returns the server's response body. -/
theorem send_command_absent_id_noop (st : CoordState) (device_id : String)
    (body : Device) (habsent : alookup st.data device_id = none) :
    sendRelayCommand st device_id (.response 200 body) = (st, .ok body) := by
  simp [sendRelayCommand, habsent]

theorem send_command_absent_id_noop_witness :
    sendRelayCommand stTwo "9" (.response 200 toggleBody) = (stTwo, .ok toggleBody) :=
  send_command_absent_id_noop stTwo "9" toggleBody (by decide)

/-- C5: when the command transport fails (timeout or non-200 status),
`send_relay_command` raises — a timeout or the `Command failed` exception, both
carrying the failure reason — and the coordinator state is left unmodified:
no partial patch on error. -/
theorem send_command_failure_atomic (st : CoordState) (device_id : String)
    (out : CmdOutcome) (hfail : cmdFails out) :
    (sendRelayCommand st device_id out).1 = st
    ∧ isError (sendRelayCommand st device_id out).2 = true := by
  rcases hfail with rfl | ⟨s, b, rfl, hs⟩
  · exact ⟨rfl, rfl⟩
  · constructor <;> simp [sendRelayCommand, hs, isError]

theorem send_command_failure_atomic_witness :
    (sendRelayCommand stTwo "1" (.response 500 [])).1 = stTwo
    ∧ isError (sendRelayCommand stTwo "1" (.response 500 [])).2 = true :=
  send_command_failure_atomic stTwo "1" (.response 500 [])
    (Or.inr ⟨500, [], rfl, by decide⟩)

/-- C6 counterexample: on the scenario payload `id "1", type 1, name "Lamp",
state false` the device-count grouping is keyed by the `type_name` field, which
the payload does not carry, so the grouping is `unknown ↦ 1` and in particular
not `Light ↦ 1` as the claim states. -/
theorem scenario_first_refresh_grouping_counterexample :
    alookup (deviceTypes st1) (Value.vStr "Light") ≠ some 1
    ∧ deviceTypes st1 = [(Value.vStr "unknown", 1)] := by
  refine ⟨by decide, by decide⟩

/-- C6 (amended): after the scenario's first successful refresh the
device-count view reports 1, the grouping reports `unknown ↦ 1` (grouping keys
on the `type_name` field, absent from the payload), and the connection-status
view reports "Connected". -/
theorem scenario_first_refresh_amended :
    deviceCount st1 = 1
    ∧ deviceTypes st1 = [(Value.vStr "unknown", 1)]
    ∧ connectionStatus st1 = "Connected" := by
  refine ⟨by decide, by decide, by decide⟩

/-- C7: evaluation of the toggle scenario.  With device "1" off, a successful
`send_command("1","toggle")` answering `id "1", state true` merges `state: true`
into the snapshot and notifies the entity (which displays on), but
`async_toggle` then runs its optimistic flip on the already-updated value, so
the switch entity ends up reporting off — contradicting both the spec scenario
and the code's own optimistic-update intent.  The device-count view is
unchanged, as claimed. -/
theorem toggle_scenario_entity_reports_off :
    (asyncToggle st1 sw1 (.response 200 toggleBody)).2.1.attr_is_on = false
    ∧ alookup (asyncToggle st1 sw1 (.response 200 toggleBody)).1.data "1"
        = some [("id", Value.vStr "1"), ("type", Value.vInt 1),
                ("name", Value.vStr "Lamp"), ("state", Value.vBool true)]
    ∧ deviceCount (asyncToggle st1 sw1 (.response 200 toggleBody)).1 = deviceCount st1
    ∧ (asyncToggle st1 sw1 (.response 200 toggleBody)).2.2 = .ok toggleBody := by
  refine ⟨by decide, by decide, by decide, rfl⟩

/-- C9: `test_connection` is a total boolean function — it returns true exactly
on an HTTP 200 response whose body carries `online: true`, and false on any
other status, a missing `online` field, or any raised exception. -/
theorem test_connection_total_characterization (r : ProbeOutcome) :
    test_connection r = true ↔ r = .response 200 (some true) := by
  constructor
  · intro h
    cases r with
    | exn => exact absurd h (by simp [test_connection])
    | response s o =>
      simp only [test_connection] at h
      by_cases hs : s = 200
      · subst hs
        rw [if_pos rfl] at h
        cases o with
        | none => exact absurd h (by simp)
        | some b =>
          simp only [Option.getD_some] at h
          subst h
          rfl
      · rw [if_neg hs] at h
        exact absurd h (by simp)
  · rintro rfl
    rfl

/-- C10: after a successful refresh, looking up any key in the snapshot yields
the last fetched device whose stringified id equals that key (so duplicate
stringified ids resolve last-wins, every stored value is a returned device
stored under its own stringified id, and an entry without an `id` field is
keyed by the string "None"). -/
theorem snapshot_keys_last_wins (st : CoordState) (body : DevicesBody)
    (ds : List Device) (hds : body.devices = some ds) :
    (∀ k, alookup (refresh st (.response 200 body)).data k
        = lastMatch (fun d => decide (strId d = k)) ds)
    ∧ (∀ k v, alookup (refresh st (.response 200 body)).data k = some v →
        v ∈ ds ∧ strId v = k)
    ∧ (∀ d : Device, alookup d "id" = none → strId d = "None") := by
  have hdata : (refresh st (.response 200 body)).data = buildSnapshot ds := by
    rw [refresh_ok st _ (buildSnapshot ds) (by simp [asyncUpdateData, hds])]
  refine ⟨?_, ?_, ?_⟩
  · intro k
    rw [hdata, alookup_buildSnapshot]
  · intro k v hv
    rw [hdata, alookup_buildSnapshot] at hv
    have h2 := lastMatch_mem _ _ _ hv
    exact ⟨h2.1, by simpa using h2.2⟩
  · intro d hid
    show pyStr (alookup d "id") = "None"
    rw [hid]
    rfl

theorem snapshot_keys_last_wins_witness :
    alookup (refresh st0 (.response 200 bodyDup)).data "1"
        = lastMatch (fun d => decide (strId d = "1")) [dev1, devDup, devNoId]
    ∧ alookup (refresh st0 (.response 200 bodyDup)).data "1" = some devDup
    ∧ strId devNoId = "None" := by
  have h := snapshot_keys_last_wins st0 bodyDup [dev1, devDup, devNoId] rfl
  exact ⟨h.1 "1", by decide, h.2.2 devNoId (by decide)⟩

end Multitek
